import Mathlib

/-!
# KogitoTrusty controller: reconcile pass and watch registration

A shallow embedding of `pkg/controller/kogitotrusty/kogitotrusty_controller.go`.

The controller talks to collaborators whose code lives in other packages
(`infrastructure`, `services`, `framework`, controller-runtime).  They are
stateful, so each one is a function on an explicit world state `σ`; the
embedding quantifies over all such functions.  What the controller hands to a
collaborator is observed in the world: a recording wrapper around arbitrary
collaborators appends every call it receives, with its arguments and its
answer, to a log kept in the world state.  Logging calls of the controller
itself are not modelled.
-/

namespace KogitoTrusty

/-! ## Data model -/

/-- A non-nil Go `error` value; the Go type `error` is `Option GoError`,
`none` being `nil`. -/
structure GoError where
  msg : String
deriving DecidableEq, Repr

/-- The `*client.Client` handle held by the reconciler. -/
structure Client where
  id : Nat
deriving DecidableEq, Repr

/-- The `*runtime.Scheme` handle held by the reconciler. -/
structure Scheme where
  id : Nat
deriving DecidableEq, Repr

/-- The `reconcile.Request` of controller-runtime: a namespaced name. -/
structure Request where
  Namespace : String
  Name : String
deriving DecidableEq, Repr

/-- The `reconcile.Result` of controller-runtime.  `RequeueAfter` is a
`time.Duration` (a signed 64-bit count of nanoseconds); the controller only
compares it with zero and copies it, so it is carried as an `Int`. -/
structure Result where
  Requeue : Bool
  RequeueAfter : Int
deriving DecidableEq, Repr

/-- The Go zero value `reconcile.Result{}`. -/
def Result.zero : Result := { Requeue := false, RequeueAfter := 0 }

/-- Modelled from the spec: the health-check convention of section 4.1
("which health-check convention applies"), declared in package `services` as
`HealthCheckProbeType`.  The controller names only the constant
`QuarkusHealthCheckProbe`; `other` stands for every other value of the type. -/
inductive HealthCheckProbeType
  | QuarkusHealthCheckProbe
  | other (name : String)
deriving DecidableEq, Repr

/-- The fields of `services.ServiceDefinition` that the controller sets; all
other fields keep their Go zero value. -/
structure ServiceDefinition where
  DefaultImageName : String
  Request : Request
  KafkaTopics : List String
  RequiresPersistence : Bool
  RequiresMessaging : Bool
  HealthCheckProbe : HealthCheckProbeType
deriving DecidableEq, Repr

/-- The `appv1alpha1.KogitoTrustyList` container handed to the deployer; the
controller creates it empty. -/
structure KogitoTrustyList where
  Items : List String
deriving DecidableEq, Repr

/-- The receiver `ReconcileKogitoTrusty`. -/
structure ReconcileKogitoTrusty where
  client : Client
  scheme : Scheme
deriving DecidableEq, Repr

/-! ## Constants of the controller (lines 149-162) -/

def kafkaTopicNameTraceEvents : String := "kogito-tracing-decision"
def kafkaTopicNameModelEvents : String := "kogito-tracing-model"
def kafkaTopicNameExplainabilityResultEvents : String := "trusty-explainability-result"
def kafkaTopicNameExplainabilityRequestEvents : String := "trusty-explainability-request"

/-- The package variable `kafkaTopics`. -/
def kafkaTopics : List String :=
  [ kafkaTopicNameTraceEvents,
    kafkaTopicNameModelEvents,
    kafkaTopicNameExplainabilityResultEvents,
    kafkaTopicNameExplainabilityRequestEvents ]

/-! ## Reconcile (lines 122-147) -/

/-- The collaborators of `Reconcile`, as functions on the world state `σ`.
`DefaultTrustyImageName` is the constant of package `infrastructure`, taken
as a parameter.  `Deploy` stands for
`services.NewSingletonServiceDeployer(definition, instances, client, scheme).Deploy()`
and returns `(requeueAfter, err)`. -/
structure Collaborators (σ : Type) where
  DefaultTrustyImageName : String
  InjectTrustyURLIntoKogitoApps : Client → String → σ → Option GoError × σ
  Deploy : ServiceDefinition → KogitoTrustyList → Client → Scheme → σ →
    (Int × Option GoError) × σ

/-- One collaborator call made during a reconcile pass. -/
inductive Call
  | InjectTrustyURLIntoKogitoApps (cli : Client) (ns : String)
  | Deploy (definition : ServiceDefinition) (instances : KogitoTrustyList)
      (cli : Client) (scheme : Scheme)
deriving DecidableEq, Repr

/-- What one reconcile pass yields: the two Go return values, the collaborator
calls made (in order) and the world state afterwards. -/
structure ReconcileRun (σ : Type) where
  result : Result
  err : Option GoError
  calls : List Call
  world : σ

/-- The composite literal of lines 132-139. -/
def serviceDefinition (defaultImageName : String) (request : Request) : ServiceDefinition :=
  { DefaultImageName := defaultImageName
    Request := request
    KafkaTopics := kafkaTopics
    RequiresPersistence := true
    RequiresMessaging := true
    HealthCheckProbe := HealthCheckProbeType.QuarkusHealthCheckProbe }

/-- The method `(*ReconcileKogitoTrusty).Reconcile`. -/
def ReconcileKogitoTrusty.Reconcile {σ : Type} (env : Collaborators σ)
    (r : ReconcileKogitoTrusty) (request : Request) (w : σ) : ReconcileRun σ :=
  let injectCall := Call.InjectTrustyURLIntoKogitoApps r.client request.Namespace
  match env.InjectTrustyURLIntoKogitoApps r.client request.Namespace w with
  | (some err, w1) =>
    { result := Result.zero, err := some err, calls := [injectCall], world := w1 }
  | (none, w1) =>
    let instances : KogitoTrustyList := { Items := [] }
    let definition := serviceDefinition env.DefaultTrustyImageName request
    let deployCall := Call.Deploy definition instances r.client r.scheme
    match env.Deploy definition instances r.client r.scheme w1 with
    | ((_, some err), w2) =>
      { result := Result.zero, err := some err, calls := [injectCall, deployCall], world := w2 }
    | ((requeueAfter, none), w2) =>
      if requeueAfter > 0 then
        { result := { RequeueAfter := requeueAfter, Requeue := true }, err := none,
          calls := [injectCall, deployCall], world := w2 }
      else
        { result := Result.zero, err := none, calls := [injectCall, deployCall], world := w2 }

/-! ### Concrete collaborators used to exercise the model -/

/-- A collaborator set over a trivial world: injection returns `injectErr`,
the deployer returns `(delay, deployErr)`. -/
def fixedCollaborators (injectErr : Option GoError) (delay : Int)
    (deployErr : Option GoError) : Collaborators Unit :=
  { DefaultTrustyImageName := "kogito-trusty"
    InjectTrustyURLIntoKogitoApps := fun _ _ w => (injectErr, w)
    Deploy := fun _ _ _ _ w => ((delay, deployErr), w) }

def sampleReconciler : ReconcileKogitoTrusty := { client := { id := 1 }, scheme := { id := 2 } }

def sampleRequest : Request := { Namespace := "trusty-ns", Name := "trusty" }

/-- The same collaborators over a world that also carries a log: each
collaborator, when it is invoked, answers as before and appends the call it
received (with its arguments) to the log. -/
def Collaborators.recorded {σ : Type} (env : Collaborators σ) :
    Collaborators (σ × List Call) :=
  { DefaultTrustyImageName := env.DefaultTrustyImageName
    InjectTrustyURLIntoKogitoApps := fun cli ns w =>
      ((env.InjectTrustyURLIntoKogitoApps cli ns w.1).1,
        ((env.InjectTrustyURLIntoKogitoApps cli ns w.1).2,
          w.2 ++ [Call.InjectTrustyURLIntoKogitoApps cli ns]))
    Deploy := fun d i cli sch w =>
      ((env.Deploy d i cli sch w.1).1,
        ((env.Deploy d i cli sch w.1).2, w.2 ++ [Call.Deploy d i cli sch])) }

/-- The calls the collaborators received during one reconcile pass, in
order, as logged by the collaborators themselves. -/
def reconcileLog {σ : Type} (env : Collaborators σ) (r : ReconcileKogitoTrusty)
    (request : Request) (w : σ) : List Call :=
  (r.Reconcile env.recorded request (w, [])).world.2

/-! ## Watch registration: `add` (lines 55-104) -/

/-- The object kinds the controller names (typed zero values such as
`&corev1.Pod{}` in the source), plus `ConfigMap`, a dependent kind of the
data model that the controller never names. -/
inductive Kind
  | KogitoTrusty
  | KogitoInfra
  | Pod
  | Secret
  | Service
  | ConfigMap
  | Deployment
  | Route
  | ImageStream
deriving DecidableEq, Repr

/-- The controller-runtime event handlers used by `add`. -/
inductive EventHandler
  | EnqueueRequestForObject
  | EnqueueRequestForOwner (IsController : Bool) (OwnerType : Kind)
deriving DecidableEq, Repr

/-- A `schema.GroupVersion`. -/
structure GroupVersion where
  Group : String
  Version : String
deriving DecidableEq, Repr

/-- The scheme installers `add` refers to (`routev1.Install`, `imgv1.Install`). -/
inductive SchemeInstaller
  | routev1Install
  | imgv1Install
deriving DecidableEq, Repr

/-- The `GroupVersion` variable of `github.com/openshift/api/route/v1`. -/
def routev1GroupVersion : GroupVersion := { Group := "route.openshift.io", Version := "v1" }

/-- The `GroupVersion` variable of `github.com/openshift/api/image/v1`. -/
def imgv1GroupVersion : GroupVersion := { Group := "image.openshift.io", Version := "v1" }

/-- A `framework.WatchedObjects` entry; `AddToScheme` is `none` for a nil
function value. -/
structure WatchedObjects where
  GroupVersion : GroupVersion
  AddToScheme : Option SchemeInstaller
  Objects : List Kind
deriving DecidableEq, Repr

/-- The manager and the controller-runtime / framework operations `add`
uses.  `controllerNew` is `controller.New(name, mgr, opts)` (only its error is
kept; the controller `c` it creates is the receiver of `Watch`);
`controllerWatcherWatch cli owner objs` is
`framework.NewControllerWatcher(cli, mgr, c, owner).Watch(objs...)`. -/
structure Framework (σ : Type) where
  controllerNew : String → σ → Option GoError × σ
  Watch : Kind → EventHandler → σ → Option GoError × σ
  controllerWatcherWatch : Client → Kind → List WatchedObjects → σ → Option GoError × σ

/-- The `reconcile.Reconciler` interface value handed to `add`: either a
`*ReconcileKogitoTrusty` (what `Add` passes, through `newReconciler`) or some
other implementation. -/
inductive Reconciler
  | kogitoTrusty (r : ReconcileKogitoTrusty)
  | other (typeName : String)
deriving DecidableEq, Repr

/-- How a call of `add` ends: it returns an `error`, or the type assertion
`r.(*ReconcileKogitoTrusty)` panics. -/
inductive Outcome
  | returned (err : Option GoError)
  | panicked
deriving DecidableEq, Repr

/-- One run of `add`: how it ended and the world afterwards. -/
structure AddRun (σ : Type) where
  outcome : Outcome
  world : σ

/-- The slice literal `watchedObjects` of lines 85-97. -/
def watchedObjects : List WatchedObjects :=
  [ { GroupVersion := routev1GroupVersion
      AddToScheme := some SchemeInstaller.routev1Install
      Objects := [Kind.Route] },
    { GroupVersion := imgv1GroupVersion
      AddToScheme := some SchemeInstaller.imgv1Install
      Objects := [Kind.ImageStream] },
    { GroupVersion := { Group := "", Version := "" }
      AddToScheme := none
      Objects := [Kind.Service, Kind.Deployment] } ]

/-- The function `add`. -/
def add {σ : Type} (mgr : Framework σ) (r : Reconciler) (s0 : σ) : AddRun σ :=
  match mgr.controllerNew "kogitotrusty-controller" s0 with
  | (some err, s1) => { outcome := Outcome.returned (some err), world := s1 }
  | (none, s1) =>
  match mgr.Watch Kind.KogitoTrusty EventHandler.EnqueueRequestForObject s1 with
  | (some err, s2) => { outcome := Outcome.returned (some err), world := s2 }
  | (none, s2) =>
  match mgr.Watch Kind.Pod (EventHandler.EnqueueRequestForOwner true Kind.KogitoTrusty) s2 with
  | (some err, s3) => { outcome := Outcome.returned (some err), world := s3 }
  | (none, s3) =>
  match mgr.Watch Kind.Secret (EventHandler.EnqueueRequestForOwner true Kind.KogitoInfra) s3 with
  | (some err, s4) => { outcome := Outcome.returned (some err), world := s4 }
  | (none, s4) =>
  match r with
  | Reconciler.other _ => { outcome := Outcome.panicked, world := s4 }
  | Reconciler.kogitoTrusty rk =>
  match mgr.controllerWatcherWatch rk.client Kind.KogitoTrusty watchedObjects s4 with
  | (some err, s5) => { outcome := Outcome.returned (some err), world := s5 }
  | (none, s5) => { outcome := Outcome.returned none, world := s5 }

/-! ### Observing what the framework receives -/

/-- A framework operation, with the arguments it was invoked with. -/
inductive Op
  | controllerNew (name : String)
  | Watch (src : Kind) (handler : EventHandler)
  | AddToScheme (installer : SchemeInstaller)
  | controllerWatcherWatch (cli : Client) (owner : Kind) (objs : List WatchedObjects)
deriving DecidableEq, Repr

/-- One invocation of a framework operation and the error it answered. -/
structure Record where
  op : Op
  err : Option GoError
deriving DecidableEq, Repr

/-- Wraps an operation over worlds `σ` into one over worlds with a log: when
invoked it answers as the operation does and appends the invocation and its
answer to the log. -/
def recordOp {σ : Type} (op : Op) (f : σ → Option GoError × σ) (w : σ × List Record) :
    Option GoError × (σ × List Record) :=
  ((f w.1).1, ((f w.1).2, w.2 ++ [⟨op, (f w.1).1⟩]))

/-- Controller creation that logs its invocations. -/
def recordedControllerNew {σ : Type} (controllerNew : String → σ → Option GoError × σ) :
    String → σ × List Record → Option GoError × (σ × List Record) :=
  fun name => recordOp (Op.controllerNew name) (controllerNew name)

/-- A subscription operation that logs its invocations. -/
def recordedWatch {σ : Type} (watch : Kind → EventHandler → σ → Option GoError × σ) :
    Kind → EventHandler → σ × List Record → Option GoError × (σ × List Record) :=
  fun src handler => recordOp (Op.Watch src handler) (watch src handler)

/-- The same framework, every operation of which logs its invocations. -/
def Framework.recorded {σ : Type} (mgr : Framework σ) : Framework (σ × List Record) :=
  { controllerNew := recordedControllerNew mgr.controllerNew
    Watch := recordedWatch mgr.Watch
    controllerWatcherWatch := fun cli owner objs =>
      recordOp (Op.controllerWatcherWatch cli owner objs)
        (mgr.controllerWatcherWatch cli owner objs) }

/-- The framework operations invoked during a run of `add`, in order, with
their answers, as logged by the framework. -/
def addLog {σ : Type} (mgr : Framework σ) (r : Reconciler) (s0 : σ) : List Record :=
  (add mgr.recorded r (s0, [])).world.2

/-- The kinds an invocation submits for watch registration: the source kind
of a direct `c.Watch`, or every object of the list handed to the controller
watcher. -/
def Op.submittedKinds : Op → List Kind
  | Op.controllerNew _ => []
  | Op.Watch src _ => [src]
  | Op.AddToScheme _ => []
  | Op.controllerWatcherWatch _ _ objs => objs.flatMap (fun o => o.Objects)

/-- All kinds submitted for watch registration in a log, in order. -/
def submittedKinds (log : List Record) : List Kind :=
  log.flatMap (fun rec => rec.op.submittedKinds)

/-- The five operations of a complete run of `add`, in source order. -/
def addOps (cli : Client) : List Op :=
  [ Op.controllerNew "kogitotrusty-controller",
    Op.Watch Kind.KogitoTrusty EventHandler.EnqueueRequestForObject,
    Op.Watch Kind.Pod (EventHandler.EnqueueRequestForOwner true Kind.KogitoTrusty),
    Op.Watch Kind.Secret (EventHandler.EnqueueRequestForOwner true Kind.KogitoInfra),
    Op.controllerWatcherWatch cli Kind.KogitoTrusty watchedObjects ]

/-! ### The controller watcher -/

/-- Subscribes, in order, to every kind of one group with owner translation
to `owner`; stops at the first failing subscription. -/
def subscribeAll {σ : Type} (watch : Kind → EventHandler → σ → Option GoError × σ)
    (owner : Kind) : List Kind → σ → Option GoError × σ
  | [], s => (none, s)
  | k :: ks, s =>
    match watch k (EventHandler.EnqueueRequestForOwner true owner) s with
    | (some err, s1) => (some err, s1)
    | (none, s1) => subscribeAll watch owner ks s1

/-- Handles one `WatchedObjects` entry: an entry without installer belongs to
the always-present core API and is subscribed directly; an entry of an
optional group is skipped when the group is unavailable, otherwise its types
are installed first and then its kinds are subscribed. -/
def watchGroup {σ : Type} (available : String → Bool)
    (install : SchemeInstaller → σ → Option GoError × σ)
    (watch : Kind → EventHandler → σ → Option GoError × σ)
    (owner : Kind) (wo : WatchedObjects) (s : σ) : Option GoError × σ :=
  match wo.AddToScheme with
  | none => subscribeAll watch owner wo.Objects s
  | some installer =>
    if available wo.GroupVersion.Group then
      match install installer s with
      | (some err, s1) => (some err, s1)
      | (none, s1) => subscribeAll watch owner wo.Objects s1
    else (none, s)

/-- Modelled from the spec: the method `Watch` of the controller watcher of
package `framework`, whose body is not part of this development.  Section 4.2:
"For each optional group (networking extension, image-metadata extension) the
registry first installs the group's type definitions into the runtime's type
registry, then subscribes; if a group is unavailable, its kinds are skipped
without failing startup".  Section 3: group availability is "computed once at
startup, immutable afterward", hence the pure map `available`.  Section 6:
events on an owned dependent are redelivered as the owner's key, hence the
owner handler.  Groups are handled in the order given and the first error
ends the call. -/
def controllerWatcherWatch {σ : Type} (available : String → Bool)
    (install : SchemeInstaller → σ → Option GoError × σ)
    (watch : Kind → EventHandler → σ → Option GoError × σ)
    (owner : Kind) : List WatchedObjects → σ → Option GoError × σ
  | [], s => (none, s)
  | wo :: rest, s =>
    match watchGroup available install watch owner wo s with
    | (some err, s1) => (some err, s1)
    | (none, s1) => controllerWatcherWatch available install watch owner rest s1

/-- A framework over a trivial world in which every operation succeeds. -/
def healthyFramework : Framework Unit :=
  { controllerNew := fun _ s => (none, s)
    Watch := fun _ _ s => (none, s)
    controllerWatcherWatch := fun _ _ _ s => (none, s) }

/-- A framework over a trivial world in which exactly the subscription to
Pods fails. -/
def podWatchFails : Framework Unit :=
  { controllerNew := fun _ s => (none, s)
    Watch := fun k _ s => (if k = Kind.Pod then some ⟨"no pods"⟩ else none, s)
    controllerWatcherWatch := fun _ _ _ s => (none, s) }

/-- A framework over a trivial world in which only the controller watcher
fails, after it has been handed its list. -/
def watcherFails : Framework Unit :=
  { controllerNew := fun _ s => (none, s)
    Watch := fun _ _ s => (none, s)
    controllerWatcherWatch := fun _ _ _ s => (some ⟨"watcher failed"⟩, s) }

/-- C1: if `InjectTrustyURLIntoKogitoApps(client, request.Namespace)` returns a
non-nil error `e`, then `Reconcile` returns the zero `Result` together with
`e`, the only collaborator call of the pass is that injection, and the
deployer is not invoked with any arguments. -/
theorem reconcile_inject_error_is_fatal {σ : Type} (env : Collaborators σ)
    (r : ReconcileKogitoTrusty) (request : Request) (w w1 : σ) (e : GoError)
    (hInject : env.InjectTrustyURLIntoKogitoApps r.client request.Namespace w = (some e, w1)) :
    (r.Reconcile env request w).result = Result.zero ∧
    (r.Reconcile env request w).err = some e ∧
    (r.Reconcile env request w).calls =
      [Call.InjectTrustyURLIntoKogitoApps r.client request.Namespace] ∧
    (∀ d i c s, Call.Deploy d i c s ∉ (r.Reconcile env request w).calls) ∧
    (r.Reconcile env request w).world = w1 := by
  simp [ReconcileKogitoTrusty.Reconcile, hInject]

theorem reconcile_inject_error_is_fatal_witness :
    ((sampleReconciler.Reconcile (fixedCollaborators (some ⟨"boom"⟩) 7 none)
        sampleRequest ()).result = Result.zero ∧
      (sampleReconciler.Reconcile (fixedCollaborators (some ⟨"boom"⟩) 7 none)
        sampleRequest ()).err = some ⟨"boom"⟩) ∧
    (sampleReconciler.Reconcile (fixedCollaborators (some ⟨"boom"⟩) 7 none)
        sampleRequest ()).calls = [Call.InjectTrustyURLIntoKogitoApps ⟨1⟩ "trusty-ns"] := by
  have h := reconcile_inject_error_is_fatal (fixedCollaborators (some ⟨"boom"⟩) 7 none)
    sampleReconciler sampleRequest () () ⟨"boom"⟩ rfl
  exact ⟨⟨h.1, h.2.1⟩, h.2.2.1⟩

/-- C2: if the injection succeeds and `Deploy` returns `(d, nil)` with
`d > 0`, then `Reconcile` returns a nil error and a `Result` with
`RequeueAfter = d` and `Requeue = true`. -/
theorem reconcile_positive_delay_forwarded {σ : Type} (env : Collaborators σ)
    (r : ReconcileKogitoTrusty) (request : Request) (w w1 w2 : σ) (d : Int)
    (hInject : env.InjectTrustyURLIntoKogitoApps r.client request.Namespace w = (none, w1))
    (hDeploy : env.Deploy (serviceDefinition env.DefaultTrustyImageName request) ⟨[]⟩
      r.client r.scheme w1 = ((d, none), w2))
    (hd : d > 0) :
    (r.Reconcile env request w).err = none ∧
    (r.Reconcile env request w).result.RequeueAfter = d ∧
    (r.Reconcile env request w).result.Requeue = true := by
  simp [ReconcileKogitoTrusty.Reconcile, hInject, hDeploy, hd]

theorem reconcile_positive_delay_forwarded_witness :
    (sampleReconciler.Reconcile (fixedCollaborators none 30000000000 none)
        sampleRequest ()).err = none ∧
    (sampleReconciler.Reconcile (fixedCollaborators none 30000000000 none)
        sampleRequest ()).result.RequeueAfter = 30000000000 ∧
    (sampleReconciler.Reconcile (fixedCollaborators none 30000000000 none)
        sampleRequest ()).result.Requeue = true :=
  reconcile_positive_delay_forwarded (fixedCollaborators none 30000000000 none)
    sampleReconciler sampleRequest () () () 30000000000 rfl rfl (by decide)

/-- C3: if the injection succeeds and `Deploy` returns a non-nil error `e`
(with whatever delay), then `Reconcile` returns exactly `e` together with the
zero `Result`. -/
theorem reconcile_deploy_error_surfaced {σ : Type} (env : Collaborators σ)
    (r : ReconcileKogitoTrusty) (request : Request) (w w1 w2 : σ) (d : Int) (e : GoError)
    (hInject : env.InjectTrustyURLIntoKogitoApps r.client request.Namespace w = (none, w1))
    (hDeploy : env.Deploy (serviceDefinition env.DefaultTrustyImageName request) ⟨[]⟩
      r.client r.scheme w1 = ((d, some e), w2)) :
    (r.Reconcile env request w).err = some e ∧
    (r.Reconcile env request w).result = Result.zero := by
  simp [ReconcileKogitoTrusty.Reconcile, hInject, hDeploy]

theorem reconcile_deploy_error_surfaced_witness :
    (sampleReconciler.Reconcile (fixedCollaborators none 5 (some ⟨"store down"⟩))
        sampleRequest ()).err = some ⟨"store down"⟩ ∧
    (sampleReconciler.Reconcile (fixedCollaborators none 5 (some ⟨"store down"⟩))
        sampleRequest ()).result = Result.zero :=
  reconcile_deploy_error_surfaced (fixedCollaborators none 5 (some ⟨"store down"⟩))
    sampleReconciler sampleRequest () () () 5 ⟨"store down"⟩ rfl rfl

/-- C4: for every request and every behaviour of the injection step and of
`Deploy`, whenever `Reconcile` returns a non-nil error the returned `Result`
has `RequeueAfter = 0` and `Requeue = false`. -/
theorem reconcile_failed_excludes_requeue {σ : Type} (env : Collaborators σ)
    (r : ReconcileKogitoTrusty) (request : Request) (w : σ)
    (hErr : (r.Reconcile env request w).err ≠ none) :
    (r.Reconcile env request w).result.RequeueAfter = 0 ∧
    (r.Reconcile env request w).result.Requeue = false := by
  unfold ReconcileKogitoTrusty.Reconcile at hErr ⊢
  rcases hI : env.InjectTrustyURLIntoKogitoApps r.client request.Namespace w with ⟨_ | e, w1⟩
  · rcases hD : env.Deploy (serviceDefinition env.DefaultTrustyImageName request) ⟨[]⟩
        r.client r.scheme w1 with ⟨⟨d, _ | e⟩, w2⟩
    · simp only [hI, hD] at hErr
      split at hErr <;> simp at hErr
    · simp [hI, hD, Result.zero]
  · simp [hI, Result.zero]

theorem reconcile_failed_excludes_requeue_witness :
    (sampleReconciler.Reconcile (fixedCollaborators none 9 (some ⟨"conflict"⟩))
        sampleRequest ()).result.RequeueAfter = 0 ∧
    (sampleReconciler.Reconcile (fixedCollaborators none 9 (some ⟨"conflict"⟩))
        sampleRequest ()).result.Requeue = false :=
  reconcile_failed_excludes_requeue (fixedCollaborators none 9 (some ⟨"conflict"⟩))
    sampleReconciler sampleRequest () (by
      simp [ReconcileKogitoTrusty.Reconcile, fixedCollaborators])

/-- C5: the `ServiceDefinition` the deployer receives from `Reconcile` (as
logged by the deployer itself) carries the incoming request unchanged,
requires persistence and messaging, uses the Quarkus health-check probe and
lists exactly the four pairwise-distinct Kafka topic names in source order;
every field other than `Request` is the same for any other request (and any
other pass).  Whenever the injection succeeds the deployer is invoked exactly
once, with that definition, an empty instance list and the reconciler's
client and scheme, on the world the injection left, and the pass ends in the
world and with the error the deployer answered. -/
theorem reconcile_service_definition {σ : Type} (env : Collaborators σ)
    (r : ReconcileKogitoTrusty) (request : Request) (w : σ) :
    (∀ d i c s, Call.Deploy d i c s ∈ reconcileLog env r request w →
      d.Request = request ∧
      d.RequiresPersistence = true ∧
      d.RequiresMessaging = true ∧
      d.HealthCheckProbe = HealthCheckProbeType.QuarkusHealthCheckProbe ∧
      d.KafkaTopics = ["kogito-tracing-decision", "kogito-tracing-model",
        "trusty-explainability-result", "trusty-explainability-request"] ∧
      d.KafkaTopics.Nodup ∧
      (∀ (r2 : ReconcileKogitoTrusty) (request2 : Request) (w2 : σ) d2 i2 c2 s2,
        Call.Deploy d2 i2 c2 s2 ∈ reconcileLog env r2 request2 w2 →
        d2.KafkaTopics = d.KafkaTopics ∧
        d2.RequiresPersistence = d.RequiresPersistence ∧
        d2.RequiresMessaging = d.RequiresMessaging ∧
        d2.HealthCheckProbe = d.HealthCheckProbe ∧
        d2.DefaultImageName = d.DefaultImageName)) ∧
    (∀ w1, env.InjectTrustyURLIntoKogitoApps r.client request.Namespace w = (none, w1) →
      reconcileLog env r request w =
        [ Call.InjectTrustyURLIntoKogitoApps r.client request.Namespace,
          Call.Deploy (serviceDefinition env.DefaultTrustyImageName request) ⟨[]⟩
            r.client r.scheme ] ∧
      (r.Reconcile env request w).world =
        (env.Deploy (serviceDefinition env.DefaultTrustyImageName request) ⟨[]⟩
          r.client r.scheme w1).2 ∧
      (r.Reconcile env request w).err =
        (env.Deploy (serviceDefinition env.DefaultTrustyImageName request) ⟨[]⟩
          r.client r.scheme w1).1.2) := by
  have key : ∀ (r : ReconcileKogitoTrusty) (request : Request) (w : σ) d i c s,
      Call.Deploy d i c s ∈ reconcileLog env r request w →
      d = serviceDefinition env.DefaultTrustyImageName request := by
    intro r request w d i c s hmem
    unfold reconcileLog ReconcileKogitoTrusty.Reconcile at hmem
    rcases hI : env.InjectTrustyURLIntoKogitoApps r.client request.Namespace w with ⟨_ | e, w1⟩
    · rcases hD : env.Deploy (serviceDefinition env.DefaultTrustyImageName request) ⟨[]⟩
          r.client r.scheme w1 with ⟨⟨t, _ | e⟩, w2⟩
      · simp only [Collaborators.recorded, hI, hD] at hmem
        split at hmem <;> simp at hmem <;> exact hmem.1
      · simp [Collaborators.recorded, hI, hD] at hmem
        exact hmem.1
    · simp [Collaborators.recorded, hI] at hmem
  refine ⟨?_, ?_⟩
  · intro d i c s hmem
    have hd := key r request w d i c s hmem
    subst hd
    refine ⟨rfl, rfl, rfl, rfl, rfl, ?_, ?_⟩
    · simp [serviceDefinition, kafkaTopics, kafkaTopicNameTraceEvents,
        kafkaTopicNameModelEvents, kafkaTopicNameExplainabilityResultEvents,
        kafkaTopicNameExplainabilityRequestEvents]
    · intro r2 request2 w2 d2 i2 c2 s2 hmem2
      have hd2 := key r2 request2 w2 d2 i2 c2 s2 hmem2
      subst hd2
      exact ⟨rfl, rfl, rfl, rfl, rfl⟩
  · intro w1 hI
    unfold reconcileLog ReconcileKogitoTrusty.Reconcile
    rcases hD : env.Deploy (serviceDefinition env.DefaultTrustyImageName request) ⟨[]⟩
        r.client r.scheme w1 with ⟨⟨t, _ | e⟩, w2⟩
    · simp only [Collaborators.recorded, hI, hD]
      refine ⟨?_, ?_, ?_⟩ <;> split <;> simp
    · simp [Collaborators.recorded, hI, hD]

theorem reconcile_service_definition_witness :
    reconcileLog (fixedCollaborators none 0 none) sampleReconciler sampleRequest () =
      [ Call.InjectTrustyURLIntoKogitoApps ⟨1⟩ "trusty-ns",
        Call.Deploy
          { DefaultImageName := "kogito-trusty"
            Request := sampleRequest
            KafkaTopics := ["kogito-tracing-decision", "kogito-tracing-model",
              "trusty-explainability-result", "trusty-explainability-request"]
            RequiresPersistence := true
            RequiresMessaging := true
            HealthCheckProbe := HealthCheckProbeType.QuarkusHealthCheckProbe }
          ⟨[]⟩ ⟨1⟩ ⟨2⟩ ] :=
  ((reconcile_service_definition (fixedCollaborators none 0 none)
    sampleReconciler sampleRequest ()).2 () rfl).1

/-- C9: if the injection succeeds and `Deploy` returns `(d, nil)` with
`d ≤ 0`, then `Reconcile` returns the zero `Result` and a nil error; and in
every result `Reconcile` returns, `Requeue` is true exactly when
`RequeueAfter > 0`. -/
theorem reconcile_nonpositive_delay_settles {σ : Type} (env : Collaborators σ)
    (r : ReconcileKogitoTrusty) (request : Request) (w : σ) :
    (∀ (w1 w2 : σ) (d : Int),
      env.InjectTrustyURLIntoKogitoApps r.client request.Namespace w = (none, w1) →
      env.Deploy (serviceDefinition env.DefaultTrustyImageName request) ⟨[]⟩
        r.client r.scheme w1 = ((d, none), w2) →
      d ≤ 0 →
      (r.Reconcile env request w).result = Result.zero ∧
      (r.Reconcile env request w).err = none ∧
      (r.Reconcile env request w).result.Requeue = false ∧
      (r.Reconcile env request w).result.RequeueAfter = 0) ∧
    ((r.Reconcile env request w).result.Requeue = true ↔
      (r.Reconcile env request w).result.RequeueAfter > 0) := by
  refine ⟨?_, ?_⟩
  · intro w1 w2 d hI hD hd
    have hnot : ¬ d > 0 := not_lt.mpr hd
    simp [ReconcileKogitoTrusty.Reconcile, hI, hD, hnot, Result.zero]
  · unfold ReconcileKogitoTrusty.Reconcile
    rcases hI : env.InjectTrustyURLIntoKogitoApps r.client request.Namespace w with ⟨_ | e, w1⟩
    · rcases hD : env.Deploy (serviceDefinition env.DefaultTrustyImageName request) ⟨[]⟩
          r.client r.scheme w1 with ⟨⟨d, _ | e⟩, w2⟩
      · simp only [hI, hD]
        split
        · rename_i hpos
          simp [hpos]
        · simp [Result.zero]
      · simp [hI, hD, Result.zero]
    · simp [hI, Result.zero]

theorem reconcile_nonpositive_delay_settles_witness :
    (sampleReconciler.Reconcile (fixedCollaborators none (-3) none)
        sampleRequest ()).result = Result.zero ∧
    (sampleReconciler.Reconcile (fixedCollaborators none (-3) none)
        sampleRequest ()).err = none :=
  have h := (reconcile_nonpositive_delay_settles (fixedCollaborators none (-3) none)
    sampleReconciler sampleRequest ()).1 () () (-3) rfl rfl (by decide)
  ⟨h.1, h.2.1⟩

/-! ## Theorems about `add` -/

/-- C10: the framework operations `add` invokes are, in this order,
controller creation, the subscription to the primary kind with direct
enqueueing, to Pods owned by KogitoTrusty, to Secrets owned by KogitoInfra,
and the controller watcher on the groups `[Route]`, `[ImageStream]`,
`[Service, Deployment]`, each at most once: the log kept by the framework is
an initial segment of that list.  Every invocation but the last answered nil;
`add` does not panic and returns the answer of the last invocation; after a
nil answer the next operation is invoked, so an invocation answering an error
`e` is the last one and `add` returns `e`; `add` returns nil exactly when all
five operations were invoked and each answered nil, that is exactly when the
framework answers nil along the whole chain, and then `add` leaves the world
the controller watcher left. -/
theorem add_fixed_order_fail_fast {σ : Type} (mgr : Framework σ)
    (rk : ReconcileKogitoTrusty) (s0 : σ) :
    addOps rk.client =
      [ Op.controllerNew "kogitotrusty-controller",
        Op.Watch Kind.KogitoTrusty EventHandler.EnqueueRequestForObject,
        Op.Watch Kind.Pod (EventHandler.EnqueueRequestForOwner true Kind.KogitoTrusty),
        Op.Watch Kind.Secret (EventHandler.EnqueueRequestForOwner true Kind.KogitoInfra),
        Op.controllerWatcherWatch rk.client Kind.KogitoTrusty watchedObjects ] ∧
    watchedObjects.map (fun o => o.Objects) =
      [[Kind.Route], [Kind.ImageStream], [Kind.Service, Kind.Deployment]] ∧
    (addOps rk.client).Nodup ∧
    (addLog mgr (Reconciler.kogitoTrusty rk) s0).map (fun rec => rec.op) =
      (addOps rk.client).take (addLog mgr (Reconciler.kogitoTrusty rk) s0).length ∧
    (∀ rec ∈ (addLog mgr (Reconciler.kogitoTrusty rk) s0).dropLast, rec.err = none) ∧
    (∃ last, (addLog mgr (Reconciler.kogitoTrusty rk) s0).getLast? = some last ∧
      (add mgr (Reconciler.kogitoTrusty rk) s0).outcome = Outcome.returned last.err ∧
      (last.err = none → (addLog mgr (Reconciler.kogitoTrusty rk) s0).length = 5)) ∧
    (∀ rec ∈ addLog mgr (Reconciler.kogitoTrusty rk) s0, ∀ e, rec.err = some e →
      (add mgr (Reconciler.kogitoTrusty rk) s0).outcome = Outcome.returned (some e)) ∧
    ((add mgr (Reconciler.kogitoTrusty rk) s0).outcome = Outcome.returned none ↔
      (addLog mgr (Reconciler.kogitoTrusty rk) s0).map (fun rec => rec.op) =
          addOps rk.client ∧
        ∀ rec ∈ addLog mgr (Reconciler.kogitoTrusty rk) s0, rec.err = none) ∧
    ((add mgr (Reconciler.kogitoTrusty rk) s0).outcome = Outcome.returned none ↔
      ∃ s1 s2 s3 s4 s5,
        mgr.controllerNew "kogitotrusty-controller" s0 = (none, s1) ∧
        mgr.Watch Kind.KogitoTrusty EventHandler.EnqueueRequestForObject s1 = (none, s2) ∧
        mgr.Watch Kind.Pod (EventHandler.EnqueueRequestForOwner true Kind.KogitoTrusty) s2 =
          (none, s3) ∧
        mgr.Watch Kind.Secret (EventHandler.EnqueueRequestForOwner true Kind.KogitoInfra) s3 =
          (none, s4) ∧
        mgr.controllerWatcherWatch rk.client Kind.KogitoTrusty watchedObjects s4 =
          (none, s5) ∧
        (add mgr (Reconciler.kogitoTrusty rk) s0).world = s5) ∧
    (add mgr.recorded (Reconciler.kogitoTrusty rk) (s0, [])).outcome =
      (add mgr (Reconciler.kogitoTrusty rk) s0).outcome ∧
    (add mgr.recorded (Reconciler.kogitoTrusty rk) (s0, [])).world.1 =
      (add mgr (Reconciler.kogitoTrusty rk) s0).world := by
  refine ⟨rfl, rfl, by simp [addOps], ?_⟩
  rcases h1 : mgr.controllerNew "kogitotrusty-controller" s0 with ⟨_ | e1, s1⟩
  · rcases h2 : mgr.Watch Kind.KogitoTrusty EventHandler.EnqueueRequestForObject s1
      with ⟨_ | e2, s2⟩
    · rcases h3 : mgr.Watch Kind.Pod
        (EventHandler.EnqueueRequestForOwner true Kind.KogitoTrusty) s2 with ⟨_ | e3, s3⟩
      · rcases h4 : mgr.Watch Kind.Secret
          (EventHandler.EnqueueRequestForOwner true Kind.KogitoInfra) s3 with ⟨_ | e4, s4⟩
        · rcases h5 : mgr.controllerWatcherWatch rk.client Kind.KogitoTrusty watchedObjects s4
            with ⟨_ | e5, s5⟩
          · simp [add, addLog, Framework.recorded, recordedControllerNew, recordedWatch, recordOp, h1, h2, h3, h4, h5, addOps]
          · simp [add, addLog, Framework.recorded, recordedControllerNew, recordedWatch, recordOp, h1, h2, h3, h4, h5, addOps]
        · simp [add, addLog, Framework.recorded, recordedControllerNew, recordedWatch, recordOp, h1, h2, h3, h4, addOps]
      · simp [add, addLog, Framework.recorded, recordedControllerNew, recordedWatch, recordOp, h1, h2, h3, addOps]
    · simp [add, addLog, Framework.recorded, recordedControllerNew, recordedWatch, recordOp, h1, h2, addOps]
  · simp [add, addLog, Framework.recorded, recordedControllerNew, recordedWatch, recordOp, h1, addOps]

theorem add_fixed_order_fail_fast_witness :
    (add podWatchFails (Reconciler.kogitoTrusty sampleReconciler) ()).outcome =
      Outcome.returned (some ⟨"no pods"⟩) ∧
    (addLog podWatchFails (Reconciler.kogitoTrusty sampleReconciler) ()).map
        (fun rec => rec.op) =
      [ Op.controllerNew "kogitotrusty-controller",
        Op.Watch Kind.KogitoTrusty EventHandler.EnqueueRequestForObject,
        Op.Watch Kind.Pod (EventHandler.EnqueueRequestForOwner true Kind.KogitoTrusty) ] := by
  have h := add_fixed_order_fail_fast podWatchFails sampleReconciler ()
  refine ⟨h.2.2.2.2.2.2.1 ⟨Op.Watch Kind.Pod
    (EventHandler.EnqueueRequestForOwner true Kind.KogitoTrusty), some ⟨"no pods"⟩⟩
    (by decide) ⟨"no pods"⟩ rfl, ?_⟩
  exact h.2.2.2.1

/-- C6, as stated, fails: in a run of `add` where every framework operation
succeeds, `ConfigMap` is not among the kinds the framework receives for watch
registration, so not all five dependent kinds are submitted. -/
theorem add_does_not_submit_configmap :
    (add healthyFramework (Reconciler.kogitoTrusty sampleReconciler) ()).outcome =
      Outcome.returned none ∧
    ¬ (Kind.Deployment ∈ submittedKinds
          (addLog healthyFramework (Reconciler.kogitoTrusty sampleReconciler) ()) ∧
       Kind.Service ∈ submittedKinds
          (addLog healthyFramework (Reconciler.kogitoTrusty sampleReconciler) ()) ∧
       Kind.ConfigMap ∈ submittedKinds
          (addLog healthyFramework (Reconciler.kogitoTrusty sampleReconciler) ()) ∧
       Kind.Route ∈ submittedKinds
          (addLog healthyFramework (Reconciler.kogitoTrusty sampleReconciler) ()) ∧
       Kind.ImageStream ∈ submittedKinds
          (addLog healthyFramework (Reconciler.kogitoTrusty sampleReconciler) ())) := by
  decide

/-- C6, amended: whenever controller creation and the three direct
subscriptions succeed, `add` invokes the controller watcher with the list
`watchedObjects`, on the world the last subscription left, and ends with the
watcher's answer in the world the watcher left; so Deployment, Service, Route
and ImageStream are among the kinds the framework receives for watch
registration, whatever the watcher answers.  ConfigMap is not among the kinds
the framework receives in any run of `add`. -/
theorem add_submitted_dependent_kinds {σ : Type} (mgr : Framework σ) (r : Reconciler)
    (s0 : σ) :
    Kind.ConfigMap ∉ submittedKinds (addLog mgr r s0) ∧
    (∀ rk s1 s2 s3 s4, r = Reconciler.kogitoTrusty rk →
      mgr.controllerNew "kogitotrusty-controller" s0 = (none, s1) →
      mgr.Watch Kind.KogitoTrusty EventHandler.EnqueueRequestForObject s1 = (none, s2) →
      mgr.Watch Kind.Pod (EventHandler.EnqueueRequestForOwner true Kind.KogitoTrusty) s2 =
        (none, s3) →
      mgr.Watch Kind.Secret (EventHandler.EnqueueRequestForOwner true Kind.KogitoInfra) s3 =
        (none, s4) →
      (add mgr r s0).outcome = Outcome.returned
        (mgr.controllerWatcherWatch rk.client Kind.KogitoTrusty watchedObjects s4).1 ∧
      (add mgr r s0).world =
        (mgr.controllerWatcherWatch rk.client Kind.KogitoTrusty watchedObjects s4).2 ∧
      (⟨Op.controllerWatcherWatch rk.client Kind.KogitoTrusty watchedObjects,
          (mgr.controllerWatcherWatch rk.client Kind.KogitoTrusty watchedObjects s4).1⟩ :
        Record) ∈ addLog mgr r s0 ∧
      watchedObjects.flatMap (fun o => o.Objects) =
        [Kind.Route, Kind.ImageStream, Kind.Service, Kind.Deployment] ∧
      Kind.Deployment ∈ submittedKinds (addLog mgr r s0) ∧
      Kind.Service ∈ submittedKinds (addLog mgr r s0) ∧
      Kind.Route ∈ submittedKinds (addLog mgr r s0) ∧
      Kind.ImageStream ∈ submittedKinds (addLog mgr r s0)) := by
  refine ⟨?_, ?_⟩
  · rcases h1 : mgr.controllerNew "kogitotrusty-controller" s0 with ⟨_ | e1, s1⟩
    · rcases h2 : mgr.Watch Kind.KogitoTrusty EventHandler.EnqueueRequestForObject s1
        with ⟨_ | e2, s2⟩
      · rcases h3 : mgr.Watch Kind.Pod
          (EventHandler.EnqueueRequestForOwner true Kind.KogitoTrusty) s2 with ⟨_ | e3, s3⟩
        · rcases h4 : mgr.Watch Kind.Secret
            (EventHandler.EnqueueRequestForOwner true Kind.KogitoInfra) s3 with ⟨_ | e4, s4⟩
          · cases r with
            | other t =>
              simp [add, addLog, Framework.recorded, recordedControllerNew, recordedWatch, recordOp, h1, h2, h3, h4,
                submittedKinds, Op.submittedKinds]
            | kogitoTrusty rk =>
              rcases h5 : mgr.controllerWatcherWatch rk.client Kind.KogitoTrusty
                watchedObjects s4 with ⟨_ | e5, s5⟩ <;>
              simp only [watchedObjects] at h5 <;>
              simp [add, addLog, Framework.recorded, recordedControllerNew, recordedWatch, recordOp, h1, h2, h3, h4, h5,
                submittedKinds, Op.submittedKinds, watchedObjects]
          · simp [add, addLog, Framework.recorded, recordedControllerNew, recordedWatch, recordOp, h1, h2, h3, h4,
              submittedKinds, Op.submittedKinds]
        · simp [add, addLog, Framework.recorded, recordedControllerNew, recordedWatch, recordOp, h1, h2, h3,
            submittedKinds, Op.submittedKinds]
      · simp [add, addLog, Framework.recorded, recordedControllerNew, recordedWatch, recordOp, h1, h2,
          submittedKinds, Op.submittedKinds]
    · simp [add, addLog, Framework.recorded, recordedControllerNew, recordedWatch, recordOp, h1, submittedKinds, Op.submittedKinds]
  · intro rk s1 s2 s3 s4 hr h1 h2 h3 h4
    subst hr
    rcases h5 : mgr.controllerWatcherWatch rk.client Kind.KogitoTrusty
      watchedObjects s4 with ⟨_ | e5, s5⟩ <;>
    simp only [watchedObjects] at h5 <;>
    simp [add, addLog, Framework.recorded, recordedControllerNew, recordedWatch, recordOp, h1, h2, h3, h4, h5,
      submittedKinds, Op.submittedKinds, watchedObjects]

theorem add_submitted_dependent_kinds_witness :
    (add watcherFails (Reconciler.kogitoTrusty sampleReconciler) ()).outcome =
      Outcome.returned (some ⟨"watcher failed"⟩) ∧
    Kind.Deployment ∈ submittedKinds
      (addLog watcherFails (Reconciler.kogitoTrusty sampleReconciler) ()) ∧
    Kind.Service ∈ submittedKinds
      (addLog watcherFails (Reconciler.kogitoTrusty sampleReconciler) ()) ∧
    Kind.Route ∈ submittedKinds
      (addLog watcherFails (Reconciler.kogitoTrusty sampleReconciler) ()) ∧
    Kind.ImageStream ∈ submittedKinds
      (addLog watcherFails (Reconciler.kogitoTrusty sampleReconciler) ()) := by
  have h := (add_submitted_dependent_kinds watcherFails
    (Reconciler.kogitoTrusty sampleReconciler) ()).2 sampleReconciler () () () ()
    rfl rfl rfl rfl rfl
  exact ⟨h.1, h.2.2.2.2⟩

/-! ### The modelled controller watcher -/

end KogitoTrusty
